import Mathlib

/-!
Shallow embedding of the subscription/billing core of the
`codementor-ai-platform` repository: the Stripe webhook reconciliation
handlers and the Mongoose `Subscription` model (its schema enums, the
usage gate `canUseFeature`, `resetUsage`, and the revenue aggregations
`getMRR` / `getARR` / `getChurnRate`), together with the plan catalog
`PLANS` from the billing router.

Conventions of the embedding:
* JavaScript `Date` values are modelled as `Int` timestamps in
  milliseconds; Stripe events carry Unix-second timestamps, which the
  handlers multiply by 1000 (`new Date(x * 1000)` in the source).
* The Mongo collection of `Subscription` documents is a `List`
  `Subscription`; `findOne` is "first match in list order" and an
  in-place `save` replaces that first match.
* Mongoose runs schema validation on `document.save()` (enum paths and
  the `min: 0` constraint of `amount`); a failed validation throws and
  leaves the stored document unchanged.  This is modelled by handlers
  returning `Except String`; `.error` means the webhook handler threw
  and committed nothing.
* Monetary values are modelled as `Rat` (the source divides a yearly
  amount by 12 to obtain `mrr`).
-/

/-- The entitlement bundle of a plan / the `features` sub-document of a
`Subscription`.  Keys absent from a plan literal (for example
`whiteLabeling` on the non-enterprise plans) take the schema default
`false`. -/
structure Features where
  maxProjects : Nat
  maxCollaborators : Nat
  aiTutorMinutes : Nat
  codeExecutions : Nat
  storageGB : Nat
  customDomains : Nat
  prioritySupport : Bool
  advancedAnalytics : Bool
  ssoEnabled : Bool
  apiAccess : Bool
  whiteLabeling : Bool := false
  dedicatedManager : Bool := false
deriving Repr, DecidableEq

/-- The `usage` sub-document: consumption counters plus the reset stamp. -/
structure Usage where
  currentProjects : Nat
  aiTutorMinutesUsed : Nat
  codeExecutionsUsed : Nat
  storageUsedGB : Nat
  lastResetDate : Int
deriving Repr, DecidableEq

/-- One `Subscription` document (the fields of the Mongoose schema that
carry behaviour; the free-form `companyInfo`/`metadata` attachments are
omitted).  `createdAt` is the `timestamps: true` creation stamp used by
`getChurnRate`. -/
structure Subscription where
  userId : String
  plan : String
  status : String
  billingCycle : String
  currency : String
  amount : Rat
  mrr : Rat
  stripeCustomerId : Option String
  stripeSubscriptionId : Option String
  startDate : Int
  currentPeriodStart : Int
  currentPeriodEnd : Int
  trialEnd : Option Int
  canceledAt : Option Int
  cancelAtPeriodEnd : Bool
  features : Features
  usage : Usage
  createdAt : Int
deriving Repr, DecidableEq

/-- The denormalized subscription summary written onto the `User`
document by the webhook handlers (`subscription.plan`,
`subscription.startDate`, `subscription.endDate`,
`subscription.features`). -/
structure UserSubscriptionSummary where
  plan : String
  startDate : Option Int
  endDate : Option Int
  features : List String
deriving Repr, DecidableEq

/-- A `User` document, reduced to its id and its denormalized
subscription summary. -/
structure User where
  id : String
  subscription : UserSubscriptionSummary
deriving Repr, DecidableEq

/-- One plan of the `PLANS` catalog in the billing router: display name,
prices per billing cycle, entitlement bundle, and the key list of the
bundle literal (what `Object.keys(PLANS[plan].features)` returns). -/
structure Plan where
  name : String
  priceMonthly : Rat
  priceYearly : Rat
  features : Features
  featureKeys : List String
deriving Repr, DecidableEq

/-- Key list shared by the `free`, `starter` and `pro` feature literals. -/
def standardFeatureKeys : List String :=
  ["maxProjects", "maxCollaborators", "aiTutorMinutes", "codeExecutions",
   "storageGB", "customDomains", "prioritySupport", "advancedAnalytics",
   "ssoEnabled", "apiAccess"]

/-- The `free` plan of `PLANS`. -/
def freePlan : Plan :=
  { name := "Free", priceMonthly := 0, priceYearly := 0
    features :=
      { maxProjects := 3, maxCollaborators := 0, aiTutorMinutes := 10
        codeExecutions := 50, storageGB := 1, customDomains := 0
        prioritySupport := false, advancedAnalytics := false
        ssoEnabled := false, apiAccess := false }
    featureKeys := standardFeatureKeys }

/-- The `starter` plan of `PLANS`. -/
def starterPlan : Plan :=
  { name := "Starter", priceMonthly := 19, priceYearly := 190
    features :=
      { maxProjects := 10, maxCollaborators := 2, aiTutorMinutes := 100
        codeExecutions := 500, storageGB := 10, customDomains := 1
        prioritySupport := false, advancedAnalytics := true
        ssoEnabled := false, apiAccess := false }
    featureKeys := standardFeatureKeys }

/-- The `pro` plan of `PLANS`. -/
def proPlan : Plan :=
  { name := "Pro", priceMonthly := 49, priceYearly := 490
    features :=
      { maxProjects := 50, maxCollaborators := 10, aiTutorMinutes := 500
        codeExecutions := 5000, storageGB := 100, customDomains := 5
        prioritySupport := true, advancedAnalytics := true
        ssoEnabled := false, apiAccess := true }
    featureKeys := standardFeatureKeys }

/-- The `enterprise` plan of `PLANS` (its feature literal adds
`whiteLabeling` and `dedicatedManager`). -/
def enterprisePlan : Plan :=
  { name := "Enterprise", priceMonthly := 499, priceYearly := 4990
    features :=
      { maxProjects := 999999, maxCollaborators := 999999
        aiTutorMinutes := 999999, codeExecutions := 999999
        storageGB := 1000, customDomains := 999999
        prioritySupport := true, advancedAnalytics := true
        ssoEnabled := true, apiAccess := true
        whiteLabeling := true, dedicatedManager := true }
    featureKeys := standardFeatureKeys ++ ["whiteLabeling", "dedicatedManager"] }

/-- The plan catalog `PLANS`, as a lookup from plan key to plan. -/
def PLANS (key : String) : Option Plan :=
  if key = "free" then some freePlan
  else if key = "starter" then some starterPlan
  else if key = "pro" then some proPlan
  else if key = "enterprise" then some enterprisePlan
  else none

/-- The `status` enum of the `SubscriptionSchema`. -/
def statusEnum : List String :=
  ["active", "canceled", "past_due", "trialing", "expired", "paused"]

/-- The `plan` enum of the `SubscriptionSchema`. -/
def planEnum : List String := ["free", "starter", "pro", "enterprise"]

/-- The `billingCycle` enum of the `SubscriptionSchema`. -/
def billingCycleEnum : List String := ["monthly", "yearly"]

/-- The `currency` enum of the `SubscriptionSchema`. -/
def currencyEnum : List String := ["USD", "EUR", "GBP", "BRL", "MXN"]

/-- Mongoose schema validation as run by `document.save()`: the enum
paths of the schema plus the `min: 0` constraint on `amount`.
`document.save()` throws a `ValidationError` when this fails, leaving
the persisted document unchanged. -/
def validateSubscription (r : Subscription) : Bool :=
  statusEnum.contains r.status && planEnum.contains r.plan &&
  billingCycleEnum.contains r.billingCycle &&
  currencyEnum.contains r.currency && decide (0 ≤ r.amount)

/-- Decidable equality for `Except`, so that concrete handler runs can
be checked by `decide`. -/
instance instDecidableEqExcept {ε α : Type} [DecidableEq ε] [DecidableEq α] :
    DecidableEq (Except ε α)
  | .error e1, .error e2 =>
    if h : e1 = e2 then .isTrue (by rw [h])
    else .isFalse (fun hc => by cases hc; exact h rfl)
  | .error _, .ok _ => .isFalse (fun hc => Except.noConfusion hc)
  | .ok _, .error _ => .isFalse (fun hc => Except.noConfusion hc)
  | .ok a1, .ok a2 =>
    if h : a1 = a2 then .isTrue (by rw [h])
    else .isFalse (fun hc => by cases hc; exact h rfl)

/-- Payload of a `customer.subscription.updated` webhook: the Stripe
subscription object fields read by `handleSubscriptionUpdate`.
Timestamps are Unix seconds as delivered by Stripe. -/
structure UpdateEvent where
  id : String
  status : String
  current_period_start : Int
  current_period_end : Int
  cancel_at_period_end : Bool
  canceled_at : Option Int
deriving Repr, DecidableEq

/-- The field mutations `handleSubscriptionUpdate` performs on the
document it found: status, billing window and `cancelAtPeriodEnd` are
copied from the event unconditionally; `canceledAt` only when the event
carries a `canceled_at` timestamp. -/
def applyUpdateToRecord (r : Subscription) (e : UpdateEvent) : Subscription :=
  { r with
    status := e.status
    currentPeriodStart := e.current_period_start * 1000
    currentPeriodEnd := e.current_period_end * 1000
    cancelAtPeriodEnd := e.cancel_at_period_end
    canceledAt :=
      match e.canceled_at with
      | some t => some (t * 1000)
      | none => r.canceledAt }

/-- `handleSubscriptionUpdate`: look up the document by
`stripeSubscriptionId`; a missing document is a silent no-op; otherwise
mutate the document per `applyUpdateToRecord` and `save()` it (schema
validation may throw, committing nothing). -/
def handleSubscriptionUpdate (e : UpdateEvent) :
    List Subscription → Except String (List Subscription)
  | [] => .ok []
  | r :: rs =>
    if r.stripeSubscriptionId = some e.id then
      let r' := applyUpdateToRecord r e
      if validateSubscription r' then .ok (r' :: rs)
      else .error "ValidationError"
    else
      (handleSubscriptionUpdate e rs).map (r :: ·)

/-- The observable stored state after delivering a
`customer.subscription.updated` webhook: a handler error commits
nothing, so the store is unchanged. -/
def stateAfterUpdate (s : List Subscription) (e : UpdateEvent) :
    List Subscription :=
  match handleSubscriptionUpdate e s with
  | .ok s1 => s1
  | .error _ => s

/-- Payload of a `customer.subscription.deleted` webhook: only the
Stripe subscription id is read by `handleSubscriptionDeleted`. -/
structure DeleteEvent where
  id : String
deriving Repr, DecidableEq

/-- The `User.findByIdAndUpdate` issued by `handleSubscriptionDeleted`:
it sets only the paths `subscription.plan = 'free'` and
`subscription.endDate = new Date()` on the matching user; all other
summary fields (in particular `subscription.features`) are untouched.
A missing user id is a no-op. -/
def updateUserOnDelete (now : Int) (uid : String) : List User → List User
  | [] => []
  | u :: us =>
    if u.id = uid then
      { u with subscription :=
          { u.subscription with plan := "free", endDate := some now } } :: us
    else u :: updateUserOnDelete now uid us

/-- `handleSubscriptionDeleted`: look up by `stripeSubscriptionId`
(missing document → silent no-op); set `status = 'canceled'` and
`canceledAt = new Date()` (unconditionally — the source has no
"only if unset" guard), `save()` the document, then downgrade the
owner's denormalized summary per `updateUserOnDelete`.  `now` is the
wall clock in milliseconds. -/
def handleSubscriptionDeleted (now : Int) (e : DeleteEvent) :
    List Subscription → List User → Except String (List Subscription × List User)
  | [], users => .ok ([], users)
  | r :: rs, users =>
    if r.stripeSubscriptionId = some e.id then
      let r' := { r with status := "canceled", canceledAt := some now }
      if validateSubscription r' then
        .ok (r' :: rs, updateUserOnDelete now r.userId users)
      else .error "ValidationError"
    else
      (handleSubscriptionDeleted now e rs users).map
        (fun p => (r :: p.1, p.2))

/-- Payload of an `invoice.payment_failed` webhook: only the Stripe
customer id is read by `handlePaymentFailed`. -/
structure InvoiceEvent where
  customer : String
deriving Repr, DecidableEq

/-- `handlePaymentFailed`: look up by `stripeCustomerId`; if a document
matches, set `status = 'past_due'` and `save()` it — the source applies
this to any matching document, with no check of its current status; a
missing document is a silent no-op. -/
def handlePaymentFailed (e : InvoiceEvent) :
    List Subscription → Except String (List Subscription)
  | [] => .ok []
  | r :: rs =>
    if r.stripeCustomerId = some e.customer then
      let r' := { r with status := "past_due" }
      if validateSubscription r' then .ok (r' :: rs)
      else .error "ValidationError"
    else
      (handlePaymentFailed e rs).map (r :: ·)

/-- The data `handleCheckoutComplete` reads: the checkout session's
metadata (`userId`, `plan`, `billingCycle`, optional `currency`
defaulting to `'USD'`), the session's `customer` and `subscription`
ids, and the Stripe subscription retrieved for the billing window
(`current_period_start`, `current_period_end`, `trial_end`, Unix
seconds). -/
structure CheckoutEvent where
  userId : String
  plan : String
  billingCycle : String
  currency : Option String
  customer : String
  subscription : String
  current_period_start : Int
  current_period_end : Int
  trial_end : Option Int
deriving Repr, DecidableEq

/-- The `Subscription.findOneAndUpdate({ userId }, …, { upsert: true })`
of `handleCheckoutComplete`: the first document with the given
`userId` has the listed fields overwritten (its usage counters and
`createdAt` survive); when no document matches, a fresh document is
inserted with the schema defaults for the unlisted fields. -/
def upsertCheckout (now : Int) (e : CheckoutEvent) (amount mrr : Rat)
    (currency : String) (feats : Features) :
    List Subscription → List Subscription
  | [] =>
    [{ userId := e.userId, plan := e.plan, status := "active"
       billingCycle := e.billingCycle, currency := currency
       amount := amount, mrr := mrr
       stripeCustomerId := some e.customer
       stripeSubscriptionId := some e.subscription
       startDate := now
       currentPeriodStart := e.current_period_start * 1000
       currentPeriodEnd := e.current_period_end * 1000
       trialEnd := e.trial_end.map (· * 1000)
       canceledAt := none, cancelAtPeriodEnd := false
       features := feats
       usage :=
         { currentProjects := 0, aiTutorMinutesUsed := 0
           codeExecutionsUsed := 0, storageUsedGB := 0
           lastResetDate := now }
       createdAt := now }]
  | r :: rs =>
    if r.userId = e.userId then
      { r with plan := e.plan, status := "active"
               billingCycle := e.billingCycle, currency := currency
               amount := amount, mrr := mrr
               stripeCustomerId := some e.customer
               stripeSubscriptionId := some e.subscription
               currentPeriodStart := e.current_period_start * 1000
               currentPeriodEnd := e.current_period_end * 1000
               trialEnd := e.trial_end.map (· * 1000)
               features := feats } :: rs
    else r :: upsertCheckout now e amount mrr currency feats rs

/-- The `User.findByIdAndUpdate` issued by `handleCheckoutComplete`:
on the user with the given id it sets `subscription.plan`,
`subscription.startDate = new Date()`, `subscription.endDate =
periodEnd` and `subscription.features =
Object.keys(PLANS[plan].features)`.  A missing user id is a no-op. -/
def applyCheckoutUserWrite (now periodEnd : Int) (planKey : String)
    (keys : List String) (uid : String) : List User → List User
  | [] => []
  | u :: us =>
    if u.id = uid then
      { u with subscription :=
          { plan := planKey, startDate := some now
            endDate := some periodEnd, features := keys } } :: us
    else u :: applyCheckoutUserWrite now periodEnd planKey keys uid us

/-- `handleCheckoutComplete`, parameterized by the plan catalog so that
catalog changes can be discussed (the source closes over the module
constant `PLANS`; `handleCheckoutComplete` below instantiates the
catalog with it).  An unknown plan key makes `PLANS[plan].prices`
throw, as does an unknown billing-cycle key (`prices[billingCycle]`
is `undefined`); `mrr = yearly ? amount / 12 : amount`; the entitlement
bundle `PLANS[plan].features` is copied by value into the document. -/
def handleCheckoutCompleteWith (catalog : String → Option Plan)
    (now : Int) (e : CheckoutEvent) (store : List Subscription)
    (users : List User) :
    Except String (List Subscription × List User) :=
  match catalog e.plan with
  | none => .error "TypeError"
  | some p =>
    let priceOf : Option Rat :=
      if e.billingCycle = "monthly" then some p.priceMonthly
      else if e.billingCycle = "yearly" then some p.priceYearly
      else none
    match priceOf with
    | none => .error "TypeError"
    | some amount =>
      let mrr := if e.billingCycle = "yearly" then amount / 12 else amount
      let currency := e.currency.getD "USD"
      let periodEnd := e.current_period_end * 1000
      .ok (upsertCheckout now e amount mrr currency p.features store,
           applyCheckoutUserWrite now periodEnd e.plan p.featureKeys
             e.userId users)

/-- `handleCheckoutComplete` as it runs in the source, closed over the
module-level catalog `PLANS`. -/
def handleCheckoutComplete (now : Int) (e : CheckoutEvent)
    (store : List Subscription) (users : List User) :
    Except String (List Subscription × List User) :=
  handleCheckoutCompleteWith PLANS now e store users

/-- `SubscriptionSchema.methods.canUseFeature`: counter-gated
capabilities compare `used < limit` with strict inequality, flag-gated
capabilities return the stored flag, and unrecognized capability names
fall through to `true`. -/
def canUseFeature (sub : Subscription) (feature : String) : Bool :=
  if feature = "createProject" then
    sub.usage.currentProjects < sub.features.maxProjects
  else if feature = "aiTutor" then
    sub.usage.aiTutorMinutesUsed < sub.features.aiTutorMinutes
  else if feature = "codeExecution" then
    sub.usage.codeExecutionsUsed < sub.features.codeExecutions
  else if feature = "prioritySupport" then sub.features.prioritySupport
  else if feature = "advancedAnalytics" then sub.features.advancedAnalytics
  else if feature = "sso" then sub.features.ssoEnabled
  else if feature = "api" then sub.features.apiAccess
  else true

/-- Modelled from the spec: `recordUsage(accountId, capability, delta)`
"increments the relevant counter" (§4.2 of the specification).  The
repository source under `src/` declares the usage counters and the gate
but contains no increment operation, so this models the spec's words:
an atomic add of `delta` to the counter matching the capability, with
unrecognized capabilities left unchanged.  Counters are natural
numbers, as the stored counters are non-negative integers. -/
def recordUsage (sub : Subscription) (capability : String) (delta : Nat) :
    Subscription :=
  if capability = "createProject" then
    { sub with usage :=
        { sub.usage with currentProjects := sub.usage.currentProjects + delta } }
  else if capability = "aiTutor" then
    { sub with usage :=
        { sub.usage with aiTutorMinutesUsed := sub.usage.aiTutorMinutesUsed + delta } }
  else if capability = "codeExecution" then
    { sub with usage :=
        { sub.usage with codeExecutionsUsed := sub.usage.codeExecutionsUsed + delta } }
  else sub

/-- `SubscriptionSchema.methods.resetUsage` (the document mutation it
performs before `save()`): `aiTutorMinutesUsed` and
`codeExecutionsUsed` are zeroed and `lastResetDate` stamped, while
`currentProjects` and `storageUsedGB` are carried over via
`this.usage.currentProjects || 0` / `this.usage.storageUsedGB || 0`. -/
def resetUsage (sub : Subscription) (now : Int) : Subscription :=
  { sub with usage :=
      { currentProjects := sub.usage.currentProjects
        aiTutorMinutesUsed := 0
        codeExecutionsUsed := 0
        storageUsedGB := sub.usage.storageUsedGB
        lastResetDate := now } }

/-- Result row of the `getMRR` aggregation. -/
structure MRRResult where
  totalMRR : Rat
  subscriberCount : Nat
deriving Repr, DecidableEq

/-- The `$match` stage of `getMRR`: `status: 'active'` and
`plan: { $ne: 'free' }`. -/
def mrrMatch (r : Subscription) : Bool :=
  r.status = "active" && r.plan ≠ "free"

/-- `SubscriptionSchema.statics.getMRR`: aggregate the matching
documents into one group summing `mrr` and counting subscribers; when
the match is empty the aggregation returns no rows and the code falls
back to `result[0] || \x7b totalMRR: 0, subscriberCount: 0 \x7d`. -/
def getMRR (store : List Subscription) : MRRResult :=
  let matched := store.filter mrrMatch
  if matched.isEmpty then { totalMRR := 0, subscriberCount := 0 }
  else
    { totalMRR := (matched.map Subscription.mrr).sum
      subscriberCount := matched.length }

/-- `SubscriptionSchema.statics.getARR`: twelve times the total MRR. -/
def getARR (store : List Subscription) : Rat :=
  (getMRR store).totalMRR * 12

/-- The denominator count of `getChurnRate`: documents created before
the window start whose current status is `active`. -/
def churnDenominator (startDate : Int) (store : List Subscription) : Nat :=
  (store.filter fun r =>
    r.createdAt < startDate && r.status = "active").length

/-- The numerator count of `getChurnRate`: documents whose `canceledAt`
is present and at or after the window start and whose status is
`canceled` or `expired` — with no constraint on when the document was
created. -/
def churnNumerator (startDate : Int) (store : List Subscription) : Nat :=
  (store.filter fun r =>
    (match r.canceledAt with
     | some t => decide (startDate ≤ t)
     | none => false) &&
    (r.status = "canceled" || r.status = "expired")).length

/-- `SubscriptionSchema.statics.getChurnRate`: `(churned / totalAtStart)
* 100` when `totalAtStart > 0`, else `0`.  `startDate` is the window
start instant (the source computes it as now minus `months` calendar
months; the claims quantify over the window, so the instant is the
parameter). -/
def getChurnRate (startDate : Int) (store : List Subscription) : Rat :=
  let totalAtStart := churnDenominator startDate store
  let churned := churnNumerator startDate store
  if totalAtStart > 0 then
    ((churned : Rat) / (totalAtStart : Rat)) * 100
  else 0

/-! ## Concrete fixtures used by counterexamples and witnesses -/

/-- A valid starter-plan subscription document: Stripe ids `cus_1` /
`sub_1`, billing window ending at 100000 ms, 499 of 500 code
executions used, 2 projects and 5 GB of storage consumed. -/
def sampleSub : Subscription :=
  { userId := "user1", plan := "starter", status := "active"
    billingCycle := "monthly", currency := "USD", amount := 19, mrr := 19
    stripeCustomerId := some "cus_1", stripeSubscriptionId := some "sub_1"
    startDate := 0, currentPeriodStart := 0, currentPeriodEnd := 100000
    trialEnd := none, canceledAt := none, cancelAtPeriodEnd := false
    features := starterPlan.features
    usage :=
      { currentProjects := 2, aiTutorMinutesUsed := 30
        codeExecutionsUsed := 499, storageUsedGB := 5, lastResetDate := 0 }
    createdAt := 0 }

/-- An update event for `sub_1` whose embedded period end (second 50,
ms 50000) is older than the 100000 ms stored in `sampleSub`: a stale
event in the spec's sense. -/
def staleUpdateEvent : UpdateEvent :=
  { id := "sub_1", status := "active", current_period_start := 10
    current_period_end := 50, cancel_at_period_end := false
    canceled_at := none }

/-- An update event for `sub_1` with a fresh period end (second 200). -/
def freshUpdateEvent : UpdateEvent :=
  { id := "sub_1", status := "active", current_period_start := 150
    current_period_end := 200, cancel_at_period_end := false
    canceled_at := none }

/-- An update event for `sub_1` whose reported status
`incomplete_expired` lies outside the schema's status enum. -/
def unknownStatusEvent : UpdateEvent :=
  { id := "sub_1", status := "incomplete_expired"
    current_period_start := 150, current_period_end := 200
    cancel_at_period_end := false, canceled_at := none }

/-! ## C1 — staleness handling of `SubscriptionUpdated` -/

/-- C1, counterexample: the claim says an update event whose embedded
period end is older than the stored `currentPeriodEnd` leaves the
stored record unchanged, and that delivering E1 (period end 200 s)
then E2 (period end 50 s) still ends at E1's period end.  On the code,
applying the stale event to `sampleSub` (stored period end 100000 ms)
changes the record and regresses `currentPeriodEnd` to 50000 ms, and
E1-then-E2 ends at E2's 50000 ms, not E1's 200000 ms. -/
theorem staleUpdate_applied_counterexample :
    stateAfterUpdate [sampleSub] staleUpdateEvent ≠ [sampleSub] ∧
    (stateAfterUpdate [sampleSub] staleUpdateEvent).map
        Subscription.currentPeriodEnd = [50000] ∧
    (stateAfterUpdate (stateAfterUpdate [sampleSub] freshUpdateEvent)
        staleUpdateEvent).map Subscription.currentPeriodEnd = [50000] ∧
    (50000 : Int) ≠ 200000 := by
  decide

/-- Helper: `applyUpdateToRecord` does not change the document's
`stripeSubscriptionId`. -/
theorem applyUpdateToRecord_stripeSubscriptionId (r : Subscription)
    (e : UpdateEvent) :
    (applyUpdateToRecord r e).stripeSubscriptionId =
      r.stripeSubscriptionId := rfl

/-- C1, amended: `handleSubscriptionUpdate` performs no staleness
check — whenever a matching record exists and the handler succeeds,
the stored `currentPeriodEnd` (and status) are those of the event just
applied, regardless of how they compare to the previously stored
values; the final stored window is therefore that of the last event
applied, i.e. arrival order wins. -/
theorem handleSubscriptionUpdate_lastWriterByArrival
    (s : List Subscription) (e : UpdateEvent) :
    ∀ s1, handleSubscriptionUpdate e s = .ok s1 →
      (∃ r ∈ s, r.stripeSubscriptionId = some e.id) →
      ∃ r' ∈ s1, r'.stripeSubscriptionId = some e.id ∧
        r'.currentPeriodEnd = e.current_period_end * 1000 ∧
        r'.status = e.status := by
  induction s with
  | nil =>
    intro s1 _ hex
    rcases hex with ⟨r, hr, _⟩
    exact absurd hr (List.not_mem_nil r)
  | cons r rs ih =>
    intro s1 h hex
    by_cases hm : r.stripeSubscriptionId = some e.id
    · simp only [handleSubscriptionUpdate, if_pos hm] at h
      by_cases hv : validateSubscription (applyUpdateToRecord r e)
      · simp only [if_pos hv] at h
        cases h
        refine ⟨applyUpdateToRecord r e, List.mem_cons_self _ _, ?_, rfl, rfl⟩
        rw [applyUpdateToRecord_stripeSubscriptionId]
        exact hm
      · simp [if_neg hv] at h
    · simp only [handleSubscriptionUpdate, if_neg hm] at h
      cases hrec : handleSubscriptionUpdate e rs with
      | error msg => rw [hrec] at h; simp [Except.map] at h
      | ok t =>
        rw [hrec] at h
        simp only [Except.map] at h
        cases h
        rcases hex with ⟨r0, hr0, hid0⟩
        rcases List.mem_cons.mp hr0 with rfl | hr0'
        · exact absurd hid0 hm
        · rcases ih t hrec ⟨r0, hr0', hid0⟩ with ⟨r', hr', hprops⟩
          exact ⟨r', List.mem_cons_of_mem _ hr', hprops⟩

/-- C1, witness for the amended theorem: the fresh event applied to
`[sampleSub]` stores its own window. -/
theorem handleSubscriptionUpdate_lastWriterByArrival_witness :
    ∃ r' ∈ [applyUpdateToRecord sampleSub freshUpdateEvent],
      r'.stripeSubscriptionId = some freshUpdateEvent.id ∧
      r'.currentPeriodEnd = freshUpdateEvent.current_period_end * 1000 ∧
      r'.status = freshUpdateEvent.status :=
  handleSubscriptionUpdate_lastWriterByArrival [sampleSub] freshUpdateEvent
    [applyUpdateToRecord sampleSub freshUpdateEvent] (by decide) (by decide)

/-! ## C2 — idempotence of `SubscriptionUpdated` -/

/-- Helper: the field mutations of `handleSubscriptionUpdate` are
idempotent on a single document. -/
theorem applyUpdateToRecord_idem (r : Subscription) (e : UpdateEvent) :
    applyUpdateToRecord (applyUpdateToRecord r e) e =
      applyUpdateToRecord r e := by
  cases e with
  | mk id status cps cpe cap ca => cases ca <;> rfl

/-- Helper: a store produced by a successful `handleSubscriptionUpdate`
is a fixed point of the same event: reapplying returns it unchanged,
without error. -/
theorem handleSubscriptionUpdate_ok_fix (e : UpdateEvent) :
    ∀ (s s1 : List Subscription), handleSubscriptionUpdate e s = .ok s1 →
      handleSubscriptionUpdate e s1 = .ok s1 := by
  intro s
  induction s with
  | nil =>
    intro s1 h
    simp only [handleSubscriptionUpdate] at h
    cases h
    rfl
  | cons r rs ih =>
    intro s1 h
    by_cases hm : r.stripeSubscriptionId = some e.id
    · simp only [handleSubscriptionUpdate, if_pos hm] at h
      by_cases hv : validateSubscription (applyUpdateToRecord r e)
      · simp only [if_pos hv] at h
        cases h
        have hm' : (applyUpdateToRecord r e).stripeSubscriptionId = some e.id := by
          rw [applyUpdateToRecord_stripeSubscriptionId]; exact hm
        have hv' : validateSubscription
            (applyUpdateToRecord (applyUpdateToRecord r e) e) = true := by
          rw [applyUpdateToRecord_idem]; exact hv
        simp only [handleSubscriptionUpdate, if_pos hm', if_pos hv',
          applyUpdateToRecord_idem]
        simp [hv]
      · simp [if_neg hv] at h
    · simp only [handleSubscriptionUpdate, if_neg hm] at h
      cases hrec : handleSubscriptionUpdate e rs with
      | error msg => rw [hrec] at h; simp [Except.map] at h
      | ok t =>
        rw [hrec] at h
        simp only [Except.map] at h
        cases h
        simp only [handleSubscriptionUpdate, if_neg hm, ih t hrec, Except.map]

/-- C2: applying the same `SubscriptionUpdated` event twice produces
stored state identical to applying it once (unconditionally, at the
level of committed state), and whenever the first application
succeeded, the second application succeeds as well — it does not
error and leaves the store untouched. -/
theorem handleSubscriptionUpdate_idempotent
    (s : List Subscription) (e : UpdateEvent) :
    stateAfterUpdate (stateAfterUpdate s e) e = stateAfterUpdate s e ∧
    ∀ s1, handleSubscriptionUpdate e s = .ok s1 →
      handleSubscriptionUpdate e s1 = .ok s1 := by
  refine ⟨?_, fun s1 h => handleSubscriptionUpdate_ok_fix e s s1 h⟩
  cases h : handleSubscriptionUpdate e s with
  | ok s1 =>
    have h2 := handleSubscriptionUpdate_ok_fix e s s1 h
    simp [stateAfterUpdate, h, h2]
  | error msg => simp [stateAfterUpdate, h]

/-- C2, witness: idempotence at the concrete fixture — the fresh event
applied twice to `[sampleSub]` equals one application, and reapplying
it to the once-updated store succeeds without error. -/
theorem handleSubscriptionUpdate_idempotent_witness :
    stateAfterUpdate (stateAfterUpdate [sampleSub] freshUpdateEvent)
        freshUpdateEvent = stateAfterUpdate [sampleSub] freshUpdateEvent ∧
    handleSubscriptionUpdate freshUpdateEvent
        [applyUpdateToRecord sampleSub freshUpdateEvent] =
      .ok [applyUpdateToRecord sampleSub freshUpdateEvent] :=
  ⟨(handleSubscriptionUpdate_idempotent [sampleSub] freshUpdateEvent).1,
   (handleSubscriptionUpdate_idempotent [sampleSub] freshUpdateEvent).2
     [applyUpdateToRecord sampleSub freshUpdateEvent] (by decide)⟩

/-! ## C3 — unknown status values -/

/-- C3, counterexample: the claim says a `SubscriptionUpdated` event
whose status lies outside the schema enum stores `past_due` on the
matching record.  On the code, the handler copies the raw status and
`save()` fails enum validation: the webhook errors, the stored record
is unchanged, and its status stays `active` — it is never `past_due`. -/
theorem unknownStatus_counterexample :
    handleSubscriptionUpdate unknownStatusEvent [sampleSub] =
      .error "ValidationError" ∧
    stateAfterUpdate [sampleSub] unknownStatusEvent = [sampleSub] ∧
    (stateAfterUpdate [sampleSub] unknownStatusEvent).map
        Subscription.status = ["active"] ∧
    "active" ≠ "past_due" := by
  decide

/-- C3, amended: a status outside the schema enum is not mapped to
`past_due`; instead the raw value is copied onto the document and the
schema's enum validation rejects the `save()`, so the committed store
is unchanged — and when a matching record exists the handler throws a
`ValidationError`. -/
theorem handleSubscriptionUpdate_unknownStatus_rejected
    (s : List Subscription) (e : UpdateEvent)
    (hst : statusEnum.contains e.status = false) :
    stateAfterUpdate s e = s ∧
    ((∃ r ∈ s, r.stripeSubscriptionId = some e.id) →
      handleSubscriptionUpdate e s = .error "ValidationError") := by
  induction s with
  | nil =>
    refine ⟨by simp [stateAfterUpdate, handleSubscriptionUpdate], ?_⟩
    rintro ⟨r, hr, _⟩
    exact absurd hr (List.not_mem_nil r)
  | cons r rs ih =>
    by_cases hm : r.stripeSubscriptionId = some e.id
    · have hv : validateSubscription (applyUpdateToRecord r e) = false := by
        have hs : (applyUpdateToRecord r e).status = e.status := rfl
        simp only [validateSubscription, hs, hst]
        simp
      have hrun : handleSubscriptionUpdate e (r :: rs) =
          .error "ValidationError" := by
        simp only [handleSubscriptionUpdate, if_pos hm, hv]
        simp
      exact ⟨by simp [stateAfterUpdate, hrun], fun _ => hrun⟩
    · rcases ih with ⟨ih1, ih2⟩
      cases hrec : handleSubscriptionUpdate e rs with
      | error msg =>
        have hrun : handleSubscriptionUpdate e (r :: rs) = .error msg := by
          simp only [handleSubscriptionUpdate, if_neg hm, hrec, Except.map]
        refine ⟨by simp [stateAfterUpdate, hrun], ?_⟩
        rintro ⟨r0, hr0, hid0⟩
        rcases List.mem_cons.mp hr0 with rfl | hr0'
        · exact absurd hid0 hm
        · rw [hrun]
          have := ih2 ⟨r0, hr0', hid0⟩
          rw [hrec] at this
          cases this
          rfl
      | ok t =>
        have ht : t = rs := by
          have h1 : stateAfterUpdate rs e = t := by
            simp [stateAfterUpdate, hrec]
          rw [ih1] at h1
          exact h1.symm
        rw [ht] at hrec
        have hrun : handleSubscriptionUpdate e (r :: rs) = .ok (r :: rs) := by
          simp only [handleSubscriptionUpdate, if_neg hm, hrec, Except.map]
        refine ⟨by simp [stateAfterUpdate, hrun], ?_⟩
        rintro ⟨r0, hr0, hid0⟩
        rcases List.mem_cons.mp hr0 with rfl | hr0'
        · exact absurd hid0 hm
        · have := ih2 ⟨r0, hr0', hid0⟩
          rw [hrec] at this
          cases this

/-- C3, witness for the amended theorem, at the concrete fixture. -/
theorem handleSubscriptionUpdate_unknownStatus_rejected_witness :
    stateAfterUpdate [sampleSub] unknownStatusEvent = [sampleSub] ∧
    ((∃ r ∈ [sampleSub],
        r.stripeSubscriptionId = some unknownStatusEvent.id) →
      handleSubscriptionUpdate unknownStatusEvent [sampleSub] =
        .error "ValidationError") :=
  handleSubscriptionUpdate_unknownStatus_rejected [sampleSub]
    unknownStatusEvent (by decide)

/-! ## C4 — entitlement snapshot isolation -/

/-- Helper: the upsert of `handleCheckoutComplete` always leaves a
record for the event's user whose `features` field is exactly the
bundle passed in. -/
theorem upsertCheckout_userId_features (now : Int) (e : CheckoutEvent)
    (amount mrr : Rat) (currency : String) (feats : Features) :
    ∀ store, ∃ r ∈ upsertCheckout now e amount mrr currency feats store,
      r.userId = e.userId ∧ r.features = feats := by
  intro store
  induction store with
  | nil => exact ⟨_, List.mem_cons_self _ _, rfl, rfl⟩
  | cons r rs ih =>
    simp only [upsertCheckout]
    by_cases hm : r.userId = e.userId
    · rw [if_pos hm]
      exact ⟨_, List.mem_cons_self _ _, hm, rfl⟩
    · rw [if_neg hm]
      rcases ih with ⟨r', hr', hprops⟩
      exact ⟨r', List.mem_cons_of_mem _ hr', hprops⟩

/-- C4: the `entitlements` stored at checkout are a value snapshot of
the catalog in force at activation time: after a checkout completes
under catalog `c`, the stored record for the purchasing user holds
exactly `c`'s bundle for the purchased plan, and if a later catalog
`c'` carries a different bundle for that plan, the stored entitlements
do not equal the changed bundle — mutating the catalog cannot reach an
already-activated record. -/
theorem entitlements_snapshot_isolation
    (c c' : String → Option Plan) (now : Int) (e : CheckoutEvent)
    (store : List Subscription) (users : List User)
    (s1 : List Subscription) (u1 : List User) (p p' : Plan)
    (hc : c e.plan = some p) (hc' : c' e.plan = some p')
    (hrun : handleCheckoutCompleteWith c now e store users = .ok (s1, u1)) :
    ∃ r ∈ s1, r.userId = e.userId ∧ r.features = p.features ∧
      (p'.features ≠ p.features → r.features ≠ p'.features) := by
  simp only [handleCheckoutCompleteWith, hc] at hrun
  cases hpo : (if e.billingCycle = "monthly" then some p.priceMonthly
      else if e.billingCycle = "yearly" then some p.priceYearly
      else none) with
  | none => rw [hpo] at hrun; simp at hrun
  | some amount =>
    rw [hpo] at hrun
    simp only [Except.ok.injEq, Prod.mk.injEq] at hrun
    obtain ⟨hs1, _⟩ := hrun
    obtain ⟨r, hr, hid, hf⟩ :=
      upsertCheckout_userId_features now e amount
        (if e.billingCycle = "yearly" then amount / 12 else amount)
        (e.currency.getD "USD") p.features store
    rw [hs1] at hr
    refine ⟨r, hr, hid, hf, ?_⟩
    intro hne heq
    exact hne (by rw [← heq, hf])

/-- A checkout-completed event: user `user42` purchases `pro`, monthly,
USD, with billing window seconds 100–200. -/
def proCheckoutEvent : CheckoutEvent :=
  { userId := "user42", plan := "pro", billingCycle := "monthly"
    currency := some "USD", customer := "cus_42"
    subscription := "sub_42", current_period_start := 100
    current_period_end := 200, trial_end := none }

/-- The `pro` plan with its entitlement bundle mutated
(`maxProjects` lowered to 1): the catalog-change scenario of the
snapshot-isolation property. -/
def mutatedProPlan : Plan :=
  { proPlan with features := { proPlan.features with maxProjects := 1 } }

/-- The catalog after mutating the `pro` bundle. -/
def mutatedPLANS (key : String) : Option Plan :=
  if key = "pro" then some mutatedProPlan else PLANS key

/-- The store produced by `proCheckoutEvent` against an empty store at
time 0 (the upserted document). -/
def proCheckoutStore : List Subscription :=
  [{ userId := "user42", plan := "pro", status := "active"
     billingCycle := "monthly", currency := "USD", amount := 49, mrr := 49
     stripeCustomerId := some "cus_42"
     stripeSubscriptionId := some "sub_42"
     startDate := 0, currentPeriodStart := 100000
     currentPeriodEnd := 200000, trialEnd := none, canceledAt := none
     cancelAtPeriodEnd := false, features := proPlan.features
     usage :=
       { currentProjects := 0, aiTutorMinutesUsed := 0
         codeExecutionsUsed := 0, storageUsedGB := 0, lastResetDate := 0 }
     createdAt := 0 }]

/-- C4, witness: the concrete checkout under `PLANS` snapshots the
`pro` bundle; the mutated catalog's bundle cannot equal it. -/
theorem entitlements_snapshot_isolation_witness :
    ∃ r ∈ proCheckoutStore, r.userId = proCheckoutEvent.userId ∧
      r.features = proPlan.features ∧
      (mutatedProPlan.features ≠ proPlan.features →
        r.features ≠ mutatedProPlan.features) :=
  entitlements_snapshot_isolation PLANS mutatedPLANS 0 proCheckoutEvent
    [] [] proCheckoutStore [] proPlan mutatedProPlan
    (by decide) (by decide) (by decide)

/-! ## C5 — `SubscriptionDeleted` handling -/

/-- A `sampleSub` variant that was already canceled earlier:
`canceledAt` is set to 5000 ms. -/
def preCanceledSub : Subscription :=
  { sampleSub with canceledAt := some 5000 }

/-- The owner of `sampleSub`, currently carrying the enterprise
summary (12 feature keys) on the denormalized mirror. -/
def entUser : User :=
  { id := "user1"
    subscription :=
      { plan := "enterprise", startDate := some 0
        endDate := some 100000, features := enterprisePlan.featureKeys } }

/-- C5, counterexample: the claim says `canceledAt` is stamped only if
previously unset, and that the owner's summary reverts to the free
bundle's key set.  On the code, deleting `sub_1` at time 7000 ms
overwrites the already-set `canceledAt = 5000` with 7000, and the
owner's summary keeps its previous (enterprise) feature key list,
which differs from the free bundle's key set. -/
theorem subscriptionDeleted_counterexample :
    (handleSubscriptionDeleted 7000 ⟨"sub_1"⟩ [preCanceledSub]
        [entUser]).toOption.map
      (fun p => (p.1.map Subscription.canceledAt,
                 p.2.map (fun u => u.subscription.features))) =
      some ([some 7000], [enterprisePlan.featureKeys]) ∧
    some (7000 : Int) ≠ some (5000 : Int) ∧
    enterprisePlan.featureKeys ≠ freePlan.featureKeys := by
  decide

/-- Helper: `updateUserOnDelete` never touches the summary's
`features` key list of any user. -/
theorem updateUserOnDelete_features (now : Int) (uid : String) :
    ∀ us : List User, (updateUserOnDelete now uid us).map
        (fun u => u.subscription.features) =
      us.map (fun u => u.subscription.features) := by
  intro us
  induction us with
  | nil => rfl
  | cons u us ih =>
    simp only [updateUserOnDelete]
    by_cases hm : u.id = uid
    · rw [if_pos hm]; simp
    · rw [if_neg hm]; simp [ih]

/-- Helper: `updateUserOnDelete` sets the matched user's summary to
plan `free` with `endDate = now`. -/
theorem updateUserOnDelete_sets_free (now : Int) (uid : String) :
    ∀ us : List User, (∃ u ∈ us, u.id = uid) →
      ∃ u' ∈ updateUserOnDelete now uid us, u'.id = uid ∧
        u'.subscription.plan = "free" ∧
        u'.subscription.endDate = some now := by
  intro us
  induction us with
  | nil => rintro ⟨u, hu, _⟩; exact absurd hu (List.not_mem_nil u)
  | cons u us ih =>
    rintro ⟨u0, hu0, hid0⟩
    simp only [updateUserOnDelete]
    by_cases hm : u.id = uid
    · rw [if_pos hm]
      exact ⟨_, List.mem_cons_self _ _, hm, rfl, rfl⟩
    · rw [if_neg hm]
      rcases List.mem_cons.mp hu0 with rfl | hu0'
      · exact absurd hid0 hm
      · rcases ih ⟨u0, hu0', hid0⟩ with ⟨u', hu', hprops⟩
        exact ⟨u', List.mem_cons_of_mem _ hu', hprops⟩

/-- C5, amended: when `handleSubscriptionDeleted` commits, (a) a store
with no matching record is returned unchanged together with the users
(no-op, no error); (b) if a matching record exists, the committed
store holds a matching record with `status = canceled` and
`canceledAt = now` — `canceledAt` is overwritten unconditionally, set
or not; the matched record's owner (if present) gets summary plan
`free` and `endDate = now`; and (c) no user's summary `features` key
list is ever changed (the code never reverts it to the free bundle's
key set). -/
theorem handleSubscriptionDeleted_spec (now : Int) (e : DeleteEvent)
    (s : List Subscription) (users : List User) :
    ∀ s1 u1, handleSubscriptionDeleted now e s users = .ok (s1, u1) →
    ((∀ r ∈ s, r.stripeSubscriptionId ≠ some e.id) →
      s1 = s ∧ u1 = users) ∧
    ((∃ r ∈ s, r.stripeSubscriptionId = some e.id) →
      (∃ r' ∈ s1, r'.stripeSubscriptionId = some e.id ∧
        r'.status = "canceled" ∧ r'.canceledAt = some now) ∧
      (∃ r0 ∈ s, r0.stripeSubscriptionId = some e.id ∧
        ((∃ u ∈ users, u.id = r0.userId) →
          ∃ u' ∈ u1, u'.id = r0.userId ∧
            u'.subscription.plan = "free" ∧
            u'.subscription.endDate = some now))) ∧
    u1.map (fun u => u.subscription.features) =
      users.map (fun u => u.subscription.features) := by
  induction s with
  | nil =>
    intro s1 u1 hrun
    simp only [handleSubscriptionDeleted, Except.ok.injEq,
      Prod.mk.injEq] at hrun
    obtain ⟨hs1, hu1⟩ := hrun
    subst hs1; subst hu1
    refine ⟨fun _ => ⟨rfl, rfl⟩, ?_, rfl⟩
    rintro ⟨r, hr, _⟩
    exact absurd hr (List.not_mem_nil r)
  | cons r rs ih =>
    intro s1 u1 hrun
    by_cases hm : r.stripeSubscriptionId = some e.id
    · simp only [handleSubscriptionDeleted, if_pos hm] at hrun
      by_cases hv : validateSubscription
          { r with status := "canceled", canceledAt := some now }
      · rw [if_pos hv] at hrun
        simp only [Except.ok.injEq, Prod.mk.injEq] at hrun
        obtain ⟨hs1, hu1⟩ := hrun
        subst hs1; subst hu1
        refine ⟨fun hall => absurd hm (hall r (List.mem_cons_self _ _)),
          ?_, updateUserOnDelete_features now r.userId users⟩
        intro _
        refine ⟨⟨_, List.mem_cons_self _ _, hm, rfl, rfl⟩,
          ⟨r, List.mem_cons_self _ _, hm, ?_⟩⟩
        intro hex
        exact updateUserOnDelete_sets_free now r.userId users hex
      · rw [if_neg hv] at hrun
        simp at hrun
    · simp only [handleSubscriptionDeleted, if_neg hm] at hrun
      cases hrec : handleSubscriptionDeleted now e rs users with
      | error msg => rw [hrec] at hrun; simp [Except.map] at hrun
      | ok p =>
        obtain ⟨t, ut⟩ := p
        rw [hrec] at hrun
        simp only [Except.map, Except.ok.injEq, Prod.mk.injEq] at hrun
        obtain ⟨hs1, hu1⟩ := hrun
        subst hs1; subst hu1
        obtain ⟨ih1, ih2, ih3⟩ := ih t ut hrec
        refine ⟨?_, ?_, ih3⟩
        · intro hall
          obtain ⟨ht, hut⟩ :=
            ih1 (fun r0 hr0 => hall r0 (List.mem_cons_of_mem _ hr0))
          exact ⟨by rw [ht], hut⟩
        · rintro ⟨r0, hr0, hid0⟩
          rcases List.mem_cons.mp hr0 with rfl | hr0'
          · exact absurd hid0 hm
          · obtain ⟨⟨r', hr', hp⟩, ⟨r2, hr2, hid2, hu2⟩⟩ :=
              ih2 ⟨r0, hr0', hid0⟩
            exact ⟨⟨r', List.mem_cons_of_mem _ hr', hp⟩,
                   ⟨r2, List.mem_cons_of_mem _ hr2, hid2, hu2⟩⟩

/-- The store committed by deleting `sub_1` from `[preCanceledSub]` at
7000 ms. -/
def deletedSubStore : List Subscription :=
  [{ preCanceledSub with status := "canceled", canceledAt := some 7000 }]

/-- The users committed by that same delete: plan downgraded to free,
`endDate` stamped, feature key list untouched. -/
def deletedUsers : List User :=
  [{ entUser with subscription :=
      { entUser.subscription with plan := "free", endDate := some 7000 } }]

/-- C5, witness for the amended theorem, at the concrete fixture. -/
theorem handleSubscriptionDeleted_spec_witness :
    ((∀ r ∈ [preCanceledSub], r.stripeSubscriptionId ≠ some "sub_1") →
      deletedSubStore = [preCanceledSub] ∧ deletedUsers = [entUser]) ∧
    ((∃ r ∈ [preCanceledSub], r.stripeSubscriptionId = some "sub_1") →
      (∃ r' ∈ deletedSubStore, r'.stripeSubscriptionId = some "sub_1" ∧
        r'.status = "canceled" ∧ r'.canceledAt = some 7000) ∧
      (∃ r0 ∈ [preCanceledSub], r0.stripeSubscriptionId = some "sub_1" ∧
        ((∃ u ∈ [entUser], u.id = r0.userId) →
          ∃ u' ∈ deletedUsers, u'.id = r0.userId ∧
            u'.subscription.plan = "free" ∧
            u'.subscription.endDate = some 7000))) ∧
    deletedUsers.map (fun u => u.subscription.features) =
      [entUser].map (fun u => u.subscription.features) :=
  handleSubscriptionDeleted_spec 7000 ⟨"sub_1"⟩ [preCanceledSub] [entUser]
    deletedSubStore deletedUsers (by decide)

/-! ## C6 — `PaymentFailed` handling -/

/-- A subscription for customer `cus_1` that is already canceled:
neither `active` nor `trialing`. -/
def canceledCustomerSub : Subscription :=
  { sampleSub with status := "canceled", canceledAt := some 5000 }

/-- C6, counterexample: the claim says a matching record whose status
is neither `active` nor `trialing` is left unchanged by
`PaymentFailed`.  On the code, the already-canceled record matching
`cus_1` is rewritten to `past_due`. -/
theorem paymentFailed_counterexample :
    (handlePaymentFailed ⟨"cus_1"⟩ [canceledCustomerSub]).toOption.map
        (List.map Subscription.status) = some ["past_due"] ∧
    canceledCustomerSub.status = "canceled" ∧
    ¬("canceled" = "active" ∨ "canceled" = "trialing") := by
  decide

/-- C6, amended: `handlePaymentFailed` checks only that a record
matches the event's processor customer id — there is no
active-or-trialing guard: a store with no matching record is a no-op
that does not error, and whenever the handler commits on a store with
a matching record, the committed store holds a matching record with
`status = past_due`, whatever its previous status was. -/
theorem handlePaymentFailed_spec (e : InvoiceEvent)
    (s : List Subscription) :
    ((∀ r ∈ s, r.stripeCustomerId ≠ some e.customer) →
      handlePaymentFailed e s = .ok s) ∧
    (∀ s1, handlePaymentFailed e s = .ok s1 →
      (∃ r ∈ s, r.stripeCustomerId = some e.customer) →
      ∃ r' ∈ s1, r'.stripeCustomerId = some e.customer ∧
        r'.status = "past_due") := by
  induction s with
  | nil =>
    refine ⟨fun _ => rfl, ?_⟩
    rintro s1 _ ⟨r, hr, _⟩
    exact absurd hr (List.not_mem_nil r)
  | cons r rs ih =>
    obtain ⟨ih1, ih2⟩ := ih
    by_cases hm : r.stripeCustomerId = some e.customer
    · refine ⟨fun hall => absurd hm (hall r (List.mem_cons_self _ _)), ?_⟩
      intro s1 hrun _
      simp only [handlePaymentFailed, if_pos hm] at hrun
      by_cases hv : validateSubscription { r with status := "past_due" }
      · rw [if_pos hv] at hrun
        simp only [Except.ok.injEq] at hrun
        subst hrun
        exact ⟨_, List.mem_cons_self _ _, hm, rfl⟩
      · rw [if_neg hv] at hrun
        simp at hrun
    · constructor
      · intro hall
        have hrec := ih1 (fun r0 hr0 => hall r0 (List.mem_cons_of_mem _ hr0))
        simp only [handlePaymentFailed, if_neg hm, hrec, Except.map]
      · intro s1 hrun hex
        simp only [handlePaymentFailed, if_neg hm] at hrun
        cases hrec : handlePaymentFailed e rs with
        | error msg => rw [hrec] at hrun; simp [Except.map] at hrun
        | ok t =>
          rw [hrec] at hrun
          simp only [Except.map, Except.ok.injEq] at hrun
          subst hrun
          rcases hex with ⟨r0, hr0, hid0⟩
          rcases List.mem_cons.mp hr0 with rfl | hr0'
          · exact absurd hid0 hm
          · rcases ih2 t hrec ⟨r0, hr0', hid0⟩ with ⟨r', hr', hprops⟩
            exact ⟨r', List.mem_cons_of_mem _ hr', hprops⟩

/-- C6, witness for the amended theorem: the no-op half on a
non-matching store, and the past_due half on the concrete run. -/
theorem handlePaymentFailed_spec_witness :
    handlePaymentFailed ⟨"cus_other"⟩ [sampleSub] = .ok [sampleSub] ∧
    (∃ r' ∈ [{ sampleSub with status := "past_due" }],
      r'.stripeCustomerId = some "cus_1" ∧ r'.status = "past_due") :=
  ⟨(handlePaymentFailed_spec ⟨"cus_other"⟩ [sampleSub]).1 (by decide),
   (handlePaymentFailed_spec ⟨"cus_1"⟩ [sampleSub]).2
     [{ sampleSub with status := "past_due" }] (by decide) (by decide)⟩

/-! ## C7 — usage-gate boundary -/

/-- C7: counter-gated capabilities use strict inequality.  For any
subscription whose `codeExecutions` limit is 500 with 499 used, the
code-execution gate permits; after one recorded use it denies; a
further increment leaves the counter at exactly 501 — a plain
natural-number addition that cannot wrap or go negative. -/
theorem gate_boundary (sub : Subscription)
    (hl : sub.features.codeExecutions = 500)
    (hu : sub.usage.codeExecutionsUsed = 499) :
    canUseFeature sub "codeExecution" = true ∧
    canUseFeature (recordUsage sub "codeExecution" 1) "codeExecution"
      = false ∧
    (recordUsage (recordUsage sub "codeExecution" 1) "codeExecution"
        1).usage.codeExecutionsUsed = 501 := by
  refine ⟨?_, ?_, ?_⟩ <;> simp [canUseFeature, recordUsage, hl, hu]

/-- C7, witness: `sampleSub` (starter limits, 499 executions used) at
the boundary. -/
theorem gate_boundary_witness :
    canUseFeature sampleSub "codeExecution" = true ∧
    canUseFeature (recordUsage sampleSub "codeExecution" 1)
      "codeExecution" = false ∧
    (recordUsage (recordUsage sampleSub "codeExecution" 1)
        "codeExecution" 1).usage.codeExecutionsUsed = 501 :=
  gate_boundary sampleSub (by decide) (by decide)

/-! ## C8 — churn-rate bounds -/

/-- A store on which the churn rate exceeds 100%: one long-standing
active account, and two accounts created inside the trailing window
that canceled inside it. -/
def churnStore : List Subscription :=
  [{ sampleSub with createdAt := 0, status := "active" },
   { sampleSub with
     createdAt := 20
     status := "canceled"
     canceledAt := some 30 },
   { sampleSub with
     createdAt := 25
     status := "canceled"
     canceledAt := some 40 }]

/-- C8, counterexample: the claim says the churn rate always lies in
[0, 100].  On the code, the churned count has no created-before-window
restriction, so with window start 10 the store above yields
(2 / 1) × 100 = 200 > 100. -/
theorem churnRate_exceeds_100 :
    getChurnRate 10 churnStore = 200 ∧ ¬((200 : Rat) ≤ 100) := by
  have hn : churnNumerator 10 churnStore = 2 := by decide
  have hd : churnDenominator 10 churnStore = 1 := by decide
  constructor
  · simp only [getChurnRate, hn, hd]
    norm_num
  · norm_num

/-- C8, amended: the churn rate is never negative and is exactly 0
when the denominator (accounts created before the window start whose
status is still `active`) is 0; the upper bound 100 of the claim does
not hold in general, because the churned count also includes accounts
created inside the window. -/
theorem getChurnRate_nonneg (startDate : Int) (s : List Subscription) :
    0 ≤ getChurnRate startDate s ∧
    (churnDenominator startDate s = 0 → getChurnRate startDate s = 0) := by
  constructor
  · simp only [getChurnRate]
    split
    · positivity
    · exact le_refl 0
  · intro h
    simp only [getChurnRate, h]
    norm_num

/-- C8, witness: the amended bound at a concrete store with an empty
window denominator. -/
theorem getChurnRate_nonneg_witness :
    0 ≤ getChurnRate 10 [canceledCustomerSub] ∧
    getChurnRate 10 [canceledCustomerSub] = 0 :=
  ⟨(getChurnRate_nonneg 10 [canceledCustomerSub]).1,
   (getChurnRate_nonneg 10 [canceledCustomerSub]).2 (by decide)⟩

/-! ## C9 — `resetUsage` -/

/-- C9, counterexample: the claim says `resetUsage` zeroes all four
consumption counters.  On the code, `sampleSub` keeps its 2 current
projects and 5 GB of consumed storage after a reset. -/
theorem resetUsage_counterexample :
    (resetUsage sampleSub 123).usage.currentProjects = 2 ∧
    (2 : Nat) ≠ 0 ∧
    (resetUsage sampleSub 123).usage.storageUsedGB = 5 ∧
    (5 : Nat) ≠ 0 := by
  decide

/-- C9, amended: `resetUsage` zeroes only the metered counters
`aiTutorMinutesUsed` and `codeExecutionsUsed` and stamps
`lastResetDate` with the current time, while `currentProjects` and
`storageUsedGB` are carried over unchanged; no other field of the
subscription is modified. -/
theorem resetUsage_spec (sub : Subscription) (now : Int) :
    (resetUsage sub now).usage.aiTutorMinutesUsed = 0 ∧
    (resetUsage sub now).usage.codeExecutionsUsed = 0 ∧
    (resetUsage sub now).usage.lastResetDate = now ∧
    (resetUsage sub now).usage.currentProjects =
      sub.usage.currentProjects ∧
    (resetUsage sub now).usage.storageUsedGB = sub.usage.storageUsedGB ∧
    (resetUsage sub now).plan = sub.plan ∧
    (resetUsage sub now).status = sub.status ∧
    (resetUsage sub now).features = sub.features :=
  ⟨rfl, rfl, rfl, rfl, rfl, rfl, rfl, rfl⟩

/-! ## C10 — `getMRR` empty fallback -/

/-- C10: when no stored subscription is both `active` and on a paying
plan, the aggregation pipeline matches nothing, returns no rows, and
`getMRR` falls back to the explicit zero record: `totalMRR = 0` and
`subscriberCount = 0`. -/
theorem getMRR_empty_fallback (s : List Subscription)
    (h : ∀ r ∈ s, ¬(r.status = "active" ∧ r.plan ≠ "free")) :
    getMRR s = { totalMRR := 0, subscriberCount := 0 } := by
  have hf : s.filter mrrMatch = [] := by
    rw [List.filter_eq_nil_iff]
    intro r hr
    have hnr := h r hr
    simp only [mrrMatch]
    by_cases hs : r.status = "active"
    · have hp : r.plan = "free" := by
        by_contra hp
        exact hnr ⟨hs, hp⟩
      simp [hp]
    · simp [hs]
  unfold getMRR
  rw [hf]
  rfl

/-- C10, witness: a store holding one canceled and one free-plan
record aggregates to the explicit zero record. -/
theorem getMRR_empty_fallback_witness :
    getMRR [canceledCustomerSub, { sampleSub with plan := "free" }] =
      { totalMRR := 0, subscriberCount := 0 } :=
  getMRR_empty_fallback
    [canceledCustomerSub, { sampleSub with plan := "free" }] (by decide)
